import Mathlib

/-!
Verification of the particle gravity-field simulator of the BlackHole
component (star particles pulled into the black hole, and the accretion-disk
rotation).  The definitions below are a shallow embedding, over exact real
arithmetic, of the per-frame update loop of the component: the `starData`
initial spawn, the star-update loop (respawn inside the event horizon,
otherwise inverse-square gravity plus an orbital kick, damping, integration,
spaghettification size update, lifetime increment), and the accretion-disk
particle rotation.
-/

namespace BlackHole

/-- A 3-component vector of reals (one particle's position, velocity or
RGB color triple). -/
@[ext] structure Vec3 where
  x : ℝ
  y : ℝ
  z : ℝ

/-- Componentwise addition, as in `positions[i3] += velocities[i3]` etc. -/
def vadd (a b : Vec3) : Vec3 := ⟨a.x + b.x, a.y + b.y, a.z + b.z⟩

/-- Componentwise subtraction (used to isolate a velocity increment). -/
def vsub (a b : Vec3) : Vec3 := ⟨a.x - b.x, a.y - b.y, a.z - b.z⟩

/-- Euclidean dot product of two 3-vectors. -/
def dot (a b : Vec3) : ℝ := a.x * b.x + a.y * b.y + a.z * b.z

/-- Distance of a point to the attractor center at the origin:
`Math.sqrt(x*x + y*y + z*z)` (`distanceToCenter` in the source). -/
noncomputable def dist3 (p : Vec3) : ℝ := Real.sqrt (p.x * p.x + p.y * p.y + p.z * p.z)

/-- Configuration of the BlackHole component: the `size`,
`accretionDiskSize` and `gravitationalStrength` props (defaults 3, 8, 0.5). -/
structure Config where
  size : ℝ
  accretionDiskSize : ℝ
  gravitationalStrength : ℝ

/-- One star particle: position, velocity, displayed size, lifetime counter,
and RGB color, mirroring the `positions`, `velocities`, `sizes`, `lifetimes`
and `colors` buffers at one index. -/
structure Star where
  pos : Vec3
  vel : Vec3
  size : ℝ
  lifetime : ℝ
  color : Vec3

/-- The random draws one star update may consume, each intended to lie in
[0,1): the three shell-sampling draws (`theta`, `phi`, `radius`), the size
reset draw, and the per-frame size jitter draw. -/
structure Rnd where
  rTheta : ℝ
  rPhi : ℝ
  rRadius : ℝ
  rSize : ℝ
  rJitter : ℝ

/-- Polar angle of the shell sampler: `phi = Math.acos(Math.random() * 2 - 1)`. -/
noncomputable def phiOf (u : ℝ) : ℝ := Real.arccos (u * 2 - 1)

/-- Azimuth of the shell sampler: `theta = Math.random() * Math.PI * 2`. -/
noncomputable def thetaOf (v : ℝ) : ℝ := v * Real.pi * 2

/-- Shell radius used both at initial spawn and at respawn:
`radius = accretionDiskSize * 2 + Math.random() * accretionDiskSize`. -/
noncomputable def shellRadius (w A : ℝ) : ℝ := A * 2 + w * A

/-- The spawn-shell sampler, used both at initial spawn (lines 77–83) and at
respawn (lines 213–219):
`(radius*sin(phi)*cos(theta), radius*sin(phi)*sin(theta), radius*cos(phi))`. -/
noncomputable def shellPoint (rt rp rr A : ℝ) : Vec3 :=
  ⟨shellRadius rr A * Real.sin (phiOf rp) * Real.cos (thetaOf rt),
   shellRadius rr A * Real.sin (phiOf rp) * Real.sin (thetaOf rt),
   shellRadius rr A * Real.cos (phiOf rp)⟩

/-- Radial force magnitude (line 229): `forceMagnitude =
(gravitationalStrength * 0.5) / (distanceToCenter * distanceToCenter)`. -/
noncomputable def forceMagnitude (cfg : Config) (d : ℝ) : ℝ :=
  cfg.gravitationalStrength * 0.5 / (d * d)

/-- The direction toward the attractor: `(-x/d, -y/d, -z/d)` (lines 232–234). -/
noncomputable def dirToCenter (p : Vec3) (d : ℝ) : Vec3 := ⟨-p.x / d, -p.y / d, -p.z / d⟩

/-- Orbital speed (line 242): `orbitalSpeed =
Math.sqrt(forceMagnitude / distanceToCenter) * 2`. -/
noncomputable def orbitalSpeed (cfg : Config) (d : ℝ) : ℝ :=
  Real.sqrt (forceMagnitude cfg d / d) * 2

/-- Gravitational acceleration: `velocities += dir * forceMagnitude * 0.1`
(lines 237–239). -/
def gravityStep (v dir : Vec3) (f : ℝ) : Vec3 :=
  ⟨v.x + dir.x * f * 0.1, v.y + dir.y * f * 0.1, v.z + dir.z * f * 0.1⟩

/-- Orbital (tangential) component: `velocities[i3] += -dirZ * orbitalSpeed *
0.5; velocities[i3+2] += dirX * orbitalSpeed * 0.5` (lines 243–244); the y
component is untouched. -/
def orbitalStep (v dir : Vec3) (os : ℝ) : Vec3 :=
  ⟨v.x + -dir.z * os * 0.5, v.y, v.z + dir.x * os * 0.5⟩

/-- Velocity damping: `velocities *= 0.99` componentwise (lines 247–249). -/
def dampStep (v : Vec3) : Vec3 := ⟨v.x * 0.99, v.y * 0.99, v.z * 0.99⟩

/-- The velocity produced by the non-respawn branch for a particle at
position `p` with incoming velocity `v`: gravity kick, then orbital kick,
then damping. -/
noncomputable def heldVelStep (cfg : Config) (p v : Vec3) : Vec3 :=
  dampStep
    (orbitalStep
      (gravityStep v (dirToCenter p (dist3 p)) (forceMagnitude cfg (dist3 p)))
      (dirToCenter p (dist3 p))
      (orbitalSpeed cfg (dist3 p)))

/-- The new velocity of star `s` in the non-respawn branch. -/
noncomputable def starVel (cfg : Config) (s : Star) : Vec3 :=
  heldVelStep cfg s.pos s.vel

/-- Spaghettification: `sizes[i] = (0.2 + Math.random() * 0.1) *
Math.max(0.1, distanceToCenter / (accretionDiskSize * 3))` (lines 257–258). -/
noncomputable def starSizeUpdate (j d A : ℝ) : ℝ :=
  (0.2 + j * 0.1) * max 0.1 (d / (A * 3))

/-- One per-frame update of one star (lines 202–261).  If the distance to
center is below the event horizon `size * 1.5`, the star respawns on the
outer shell with zero velocity and fresh size and lifetime; otherwise it
receives the gravity and orbital kicks, damping, position integration, the
spaghettification size update, and a lifetime increment.  Colors are never
written. -/
noncomputable def updateStar (cfg : Config) (r : Rnd) (s : Star) : Star :=
  if dist3 s.pos < cfg.size * 1.5 then
    { pos := shellPoint r.rTheta r.rPhi r.rRadius cfg.accretionDiskSize
      vel := ⟨0, 0, 0⟩
      size := 0.2 + r.rSize * 0.3
      lifetime := 0
      color := s.color }
  else
    { pos := vadd s.pos (starVel cfg s)
      vel := starVel cfg s
      size := starSizeUpdate r.rJitter (dist3 s.pos) cfg.accretionDiskSize
      lifetime := s.lifetime + 1
      color := s.color }

/-- One frame of the star-update loop over the whole buffer, star `i`
consuming the random draws `rnd i`.  The loop mutates positions, velocities,
sizes and lifetimes in place and never touches the colors buffer. -/
noncomputable def updateFrame (cfg : Config) (rnd : ℕ → Rnd) : ℕ → List Star → List Star
  | _, [] => []
  | i, s :: rest => updateStar cfg (rnd i) s :: updateFrame cfg rnd (i + 1) rest

/-- Quadrant-adjusted arctangent `Math.atan2(y, x)` over exact reals. -/
noncomputable def atan2 (y x : ℝ) : ℝ :=
  if 0 < x then Real.arctan (y / x)
  else if x < 0 then
    (if 0 ≤ y then Real.arctan (y / x) + Real.pi else Real.arctan (y / x) - Real.pi)
  else
    (if 0 < y then Real.pi / 2 else if y < 0 then -(Real.pi / 2) else 0)

/-- One per-frame update of one accretion-disk particle (lines 178–191):
recover the angle and radius of the particle in the x–z plane, advance the
angle by `(0.5 / (radius * 0.1)) * 0.01`, and rebuild the position at the
same radius; the y coordinate is not written. -/
noncomputable def diskUpdate (p : Vec3) : Vec3 :=
  ⟨Real.cos (atan2 p.z p.x + 0.5 / (Real.sqrt (p.x * p.x + p.z * p.z) * 0.1) * 0.01) *
     Real.sqrt (p.x * p.x + p.z * p.z),
   p.y,
   Real.sin (atan2 p.z p.x + 0.5 / (Real.sqrt (p.x * p.x + p.z * p.z) * 0.1) * 0.01) *
     Real.sqrt (p.x * p.x + p.z * p.z)⟩

/-- Distance of an axis-aligned point `(0, y, 0)` to the center. -/
lemma dist3_yaxis (y : ℝ) (h : 0 ≤ y) : dist3 ⟨0, y, 0⟩ = y := by
  simp only [dist3]
  rw [show (0 : ℝ) * 0 + y * y + 0 * 0 = y * y by ring, Real.sqrt_mul_self h]

/-- The spawn-shell sampler produces a point at exactly the sampled radius. -/
lemma dist3_shellPoint (rt rp rr A : ℝ) (h : 0 ≤ shellRadius rr A) :
    dist3 (shellPoint rt rp rr A) = shellRadius rr A := by
  simp only [dist3, shellPoint]
  rw [show shellRadius rr A * Real.sin (phiOf rp) * Real.cos (thetaOf rt) *
        (shellRadius rr A * Real.sin (phiOf rp) * Real.cos (thetaOf rt)) +
      shellRadius rr A * Real.sin (phiOf rp) * Real.sin (thetaOf rt) *
        (shellRadius rr A * Real.sin (phiOf rp) * Real.sin (thetaOf rt)) +
      shellRadius rr A * Real.cos (phiOf rp) * (shellRadius rr A * Real.cos (phiOf rp)) =
      shellRadius rr A * shellRadius rr A *
        ((Real.sin (phiOf rp))^2 * ((Real.sin (thetaOf rt))^2 + (Real.cos (thetaOf rt))^2) +
         (Real.cos (phiOf rp))^2) by ring]
  rw [Real.sin_sq_add_cos_sq, mul_one, Real.sin_sq_add_cos_sq, mul_one,
    Real.sqrt_mul_self h]

/-- The default configuration of the component:
`size = 3`, `accretionDiskSize = 8`, `gravitationalStrength = 0.5`. -/
noncomputable def cfgD : Config := ⟨3, 8, 0.5⟩

/-- A concrete tuple of random draws (all zero). -/
noncomputable def rndD : Rnd := ⟨0, 0, 0, 0, 0⟩

/-- A concrete star on the y-axis at distance 16, outside the default event
horizon. -/
noncomputable def starD : Star := ⟨⟨0, 16, 0⟩, ⟨0, 0, 0⟩, 0.25, 0, ⟨1, 1, 1⟩⟩

/-- A concrete star on the y-axis at distance 1, inside the default event
horizon. -/
noncomputable def starIn : Star := ⟨⟨0, 1, 0⟩, ⟨0, 0, 0⟩, 0.25, 5, ⟨1, 1, 1⟩⟩

/-- The color field is never written by the star update, in either branch. -/
lemma updateStar_color (cfg : Config) (r : Rnd) (s : Star) :
    (updateStar cfg r s).color = s.color := by
  simp only [updateStar]
  split <;> rfl

/-- Closed form of one non-respawn step for a star sitting on the positive
y-axis with zero velocity: the orbital kick vanishes there (its x and z
factors are `-dirZ` and `dirX`, both zero), and the particle moves straight
down the axis by the damped gravity kick. -/
lemma updateStar_yaxis (cfg : Config) (r : Rnd) (s : Star) (ypos : ℝ)
    (hs : s.pos = ⟨0, ypos, 0⟩) (hv : s.vel = ⟨0, 0, 0⟩) (h0 : 0 < ypos)
    (hg : ¬ ypos < cfg.size * 1.5) :
    (updateStar cfg r s).pos =
      ⟨0, ypos + -(cfg.gravitationalStrength * 0.5 / (ypos * ypos)) * 0.1 * 0.99, 0⟩ := by
  have hd : dist3 (⟨0, ypos, 0⟩ : Vec3) = ypos := dist3_yaxis ypos h0.le
  have hne : ypos ≠ 0 := ne_of_gt h0
  simp only [updateStar, hs, hv, hd, if_neg hg, starVel, heldVelStep,
    dirToCenter, gravityStep, orbitalStep, dampStep, vadd, forceMagnitude]
  ext
  · simp
  · simp only [neg_zero, zero_div, zero_mul, mul_zero, add_zero, zero_add, neg_div]
    rw [div_self hne]
    ring
  · simp

/-- C8: in the non-respawn branch the distance to center is at least the
event-horizon radius `size * 1.5`, hence strictly positive when `size > 0`,
so the divisions by `distance` and `distance²` and the square-root argument
of the force computation are well-defined. -/
theorem C8_nonrespawn_distance_positive (cfg : Config) (s : Star)
    (hsize : 0 < cfg.size) (hguard : ¬ dist3 s.pos < cfg.size * 1.5) :
    cfg.size * 1.5 ≤ dist3 s.pos ∧ 0 < dist3 s.pos := by
  have h := not_lt.mp hguard
  exact ⟨h, lt_of_lt_of_le (by nlinarith) h⟩

/-- Witness for C8 at the default configuration and a star at distance 16. -/
theorem C8_witness : cfgD.size * 1.5 ≤ dist3 starD.pos ∧ 0 < dist3 starD.pos :=
  C8_nonrespawn_distance_positive cfgD starD (by norm_num [cfgD])
    (by rw [show starD.pos = (⟨0, 16, 0⟩ : Vec3) from rfl,
          dist3_yaxis 16 (by norm_num)]; norm_num [cfgD])

/-- C6: the spaghettification size update is monotone non-decreasing in the
distance to center, is floored at the fraction 0.1 of the base size
`0.2 + jitter * 0.1`, and equals base size times `distance /
(accretionDiskSize * 3)` whenever that ratio is at least 0.1. -/
theorem C6_size_monotone_floored (j A : ℝ) (hj : 0 ≤ j) (hA : 0 < A) :
    (∀ d1 d2 : ℝ, d1 ≤ d2 → starSizeUpdate j d1 A ≤ starSizeUpdate j d2 A) ∧
    (∀ d : ℝ, 0.1 * (0.2 + j * 0.1) ≤ starSizeUpdate j d A) ∧
    (∀ d : ℝ, 0.1 ≤ d / (A * 3) → starSizeUpdate j d A = (0.2 + j * 0.1) * (d / (A * 3))) := by
  have hb : (0 : ℝ) ≤ 0.2 + j * 0.1 := by nlinarith
  have hA3 : (0 : ℝ) < A * 3 := by nlinarith
  refine ⟨?_, ?_, ?_⟩
  · intro d1 d2 h
    exact mul_le_mul_of_nonneg_left
      (max_le_max le_rfl ((div_le_div_iff_of_pos_right hA3).mpr h)) hb
  · intro d
    calc (0.1 : ℝ) * (0.2 + j * 0.1) = (0.2 + j * 0.1) * 0.1 := by ring
    _ ≤ starSizeUpdate j d A := mul_le_mul_of_nonneg_left (le_max_left _ _) hb
  · intro d h
    unfold starSizeUpdate
    rw [max_eq_right h]

/-- Witness for C6 at jitter 0, extent 8, distances 4 ≤ 5 and 6. -/
theorem C6_witness :
    starSizeUpdate 0 4 8 ≤ starSizeUpdate 0 5 8 ∧
    (0.1 : ℝ) * (0.2 + 0 * 0.1) ≤ starSizeUpdate 0 4 8 ∧
    starSizeUpdate 0 6 8 = (0.2 + 0 * 0.1) * (6 / (8 * 3)) :=
  ⟨(C6_size_monotone_floored 0 8 le_rfl (by norm_num)).1 4 5 (by norm_num),
   (C6_size_monotone_floored 0 8 le_rfl (by norm_num)).2.1 4,
   (C6_size_monotone_floored 0 8 le_rfl (by norm_num)).2.2 6 (by norm_num)⟩

/-- C9: a per-frame update of the star buffer leaves the color of every
particle unchanged (also across respawns) and preserves the number of
particles, hence the lengths of all the per-particle buffers. -/
theorem C9_colors_and_count_preserved (cfg : Config) (rnd : ℕ → Rnd) (i : ℕ)
    (stars : List Star) :
    (updateFrame cfg rnd i stars).map (fun s => s.color) = stars.map (fun s => s.color) ∧
    (updateFrame cfg rnd i stars).length = stars.length := by
  induction stars generalizing i with
  | nil => simp [updateFrame]
  | cons s rest ih =>
    refine ⟨?_, ?_⟩
    · simp only [updateFrame, List.map_cons, updateStar_color, (ih (i + 1)).1]
    · simp only [updateFrame, List.length_cons, (ih (i + 1)).2]

/-- C5: the shell sampler is uniform over solid angle in the stated sense:
for a polar draw `u` in [0,1) the sampled polar angle satisfies
`cos (phi) = 2u - 1`, the azimuth is `2π v` for the azimuth draw `v`, and
the produced position is exactly
`radius * (sin phi * cos theta, sin phi * sin theta, cos phi)`. -/
theorem C5_shell_sampler_solid_angle (u v w A : ℝ) (hu0 : 0 ≤ u) (hu1 : u < 1) :
    Real.cos (phiOf u) = 2 * u - 1 ∧
    thetaOf v = 2 * Real.pi * v ∧
    shellPoint v u w A =
      ⟨shellRadius w A * (Real.sin (phiOf u) * Real.cos (thetaOf v)),
       shellRadius w A * (Real.sin (phiOf u) * Real.sin (thetaOf v)),
       shellRadius w A * Real.cos (phiOf u)⟩ := by
  refine ⟨?_, ?_, ?_⟩
  · rw [phiOf, Real.cos_arccos (by linarith) (by linarith)]
    ring
  · rw [thetaOf]; ring
  · ext <;> simp [shellPoint] <;> ring

/-- Witness for C5 at `u = 1/2`, `v = 1/3`, `w = 1/4`, extent 8. -/
theorem C5_witness :
    Real.cos (phiOf (1/2)) = 2 * (1/2) - 1 ∧
    thetaOf (1/3) = 2 * Real.pi * (1/3) ∧
    shellPoint (1/3) (1/2) (1/4) 8 =
      ⟨shellRadius (1/4) 8 * (Real.sin (phiOf (1/2)) * Real.cos (thetaOf (1/3))),
       shellRadius (1/4) 8 * (Real.sin (phiOf (1/2)) * Real.sin (thetaOf (1/3))),
       shellRadius (1/4) 8 * Real.cos (phiOf (1/2))⟩ :=
  C5_shell_sampler_solid_angle (1/2) (1/3) (1/4) 8 (by norm_num) (by norm_num)

/-- C7: the orbital velocity increment of the non-respawn branch is exactly
perpendicular to the direction toward the center (their dot product is zero
for every direction vector), it equals `orbitalSpeed * 0.5` times the
perpendicular vector `(-dirZ, 0, dirX)`, and the orbital speed the update
actually uses is `sqrt (forceMagnitude / distance) * 2`. -/
theorem C7_orbital_kick_perpendicular (cfg : Config) (r : Rnd) (s : Star)
    (v dir : Vec3) (os : ℝ) (hguard : ¬ dist3 s.pos < cfg.size * 1.5) :
    dot (vsub (orbitalStep v dir os) v) dir = 0 ∧
    vsub (orbitalStep v dir os) v = ⟨-dir.z * (os * 0.5), 0, dir.x * (os * 0.5)⟩ ∧
    (updateStar cfg r s).vel =
      dampStep (orbitalStep
        (gravityStep s.vel (dirToCenter s.pos (dist3 s.pos))
          (forceMagnitude cfg (dist3 s.pos)))
        (dirToCenter s.pos (dist3 s.pos))
        (Real.sqrt (forceMagnitude cfg (dist3 s.pos) / dist3 s.pos) * 2)) := by
  refine ⟨?_, ?_, ?_⟩
  · simp only [dot, vsub, orbitalStep]
    ring
  · ext <;> simp [vsub, orbitalStep] <;> ring
  · simp only [updateStar, if_neg hguard, starVel, heldVelStep, orbitalSpeed]

/-- Witness for C7 at the default configuration, a star at distance 16, and
a concrete velocity, direction and orbital speed. -/
theorem C7_witness :
    dot (vsub (orbitalStep ⟨1, 2, 3⟩ ⟨4, 5, 6⟩ 7) ⟨1, 2, 3⟩) ⟨4, 5, 6⟩ = 0 ∧
    vsub (orbitalStep ⟨1, 2, 3⟩ ⟨4, 5, 6⟩ 7) ⟨1, 2, 3⟩ =
      ⟨-(6 : ℝ) * (7 * 0.5), 0, (4 : ℝ) * (7 * 0.5)⟩ ∧
    (updateStar cfgD rndD starD).vel =
      dampStep (orbitalStep
        (gravityStep starD.vel (dirToCenter starD.pos (dist3 starD.pos))
          (forceMagnitude cfgD (dist3 starD.pos)))
        (dirToCenter starD.pos (dist3 starD.pos))
        (Real.sqrt (forceMagnitude cfgD (dist3 starD.pos) / dist3 starD.pos) * 2)) :=
  C7_orbital_kick_perpendicular cfgD rndD starD ⟨1, 2, 3⟩ ⟨4, 5, 6⟩ 7
    (by rw [show starD.pos = (⟨0, 16, 0⟩ : Vec3) from rfl,
          dist3_yaxis 16 (by norm_num)]; norm_num [cfgD])

/-- C3: in the non-respawn branch the radial force magnitude is
`gravitationalStrength * 0.5 / distance²`, the direction is the unit vector
from the particle toward the center (`(-x/d, -y/d, -z/d)`, of unit dot
product with itself), each velocity component gains `direction * force *
0.1`, and this gravity kick is applied before the orbital kick and the
damping. -/
theorem C3_gravity_kick (cfg : Config) (r : Rnd) (s : Star)
    (hguard : ¬ dist3 s.pos < cfg.size * 1.5) (hd : 0 < dist3 s.pos) :
    forceMagnitude cfg (dist3 s.pos) =
      cfg.gravitationalStrength * 0.5 / (dist3 s.pos * dist3 s.pos) ∧
    dirToCenter s.pos (dist3 s.pos) =
      ⟨-s.pos.x / dist3 s.pos, -s.pos.y / dist3 s.pos, -s.pos.z / dist3 s.pos⟩ ∧
    dot (dirToCenter s.pos (dist3 s.pos)) (dirToCenter s.pos (dist3 s.pos)) = 1 ∧
    gravityStep s.vel (dirToCenter s.pos (dist3 s.pos)) (forceMagnitude cfg (dist3 s.pos)) =
      ⟨s.vel.x + (dirToCenter s.pos (dist3 s.pos)).x * forceMagnitude cfg (dist3 s.pos) * 0.1,
       s.vel.y + (dirToCenter s.pos (dist3 s.pos)).y * forceMagnitude cfg (dist3 s.pos) * 0.1,
       s.vel.z + (dirToCenter s.pos (dist3 s.pos)).z * forceMagnitude cfg (dist3 s.pos) * 0.1⟩ ∧
    (updateStar cfg r s).vel =
      dampStep (orbitalStep
        (gravityStep s.vel (dirToCenter s.pos (dist3 s.pos))
          (forceMagnitude cfg (dist3 s.pos)))
        (dirToCenter s.pos (dist3 s.pos)) (orbitalSpeed cfg (dist3 s.pos))) := by
  have hnn : (0 : ℝ) ≤ s.pos.x * s.pos.x + s.pos.y * s.pos.y + s.pos.z * s.pos.z := by
    nlinarith [mul_self_nonneg s.pos.x, mul_self_nonneg s.pos.y, mul_self_nonneg s.pos.z]
  have hsq : dist3 s.pos * dist3 s.pos =
      s.pos.x * s.pos.x + s.pos.y * s.pos.y + s.pos.z * s.pos.z :=
    Real.mul_self_sqrt hnn
  have hne : dist3 s.pos ≠ 0 := ne_of_gt hd
  refine ⟨rfl, rfl, ?_, rfl, ?_⟩
  · simp only [dot, dirToCenter, div_mul_div_comm, neg_mul_neg]
    rw [div_add_div_same, div_add_div_same, ← hsq, div_self (mul_ne_zero hne hne)]
  · simp only [updateStar, if_neg hguard, starVel, heldVelStep]

/-- Witness for C3 at the default configuration and a star at distance 16. -/
theorem C3_witness :
    forceMagnitude cfgD (dist3 starD.pos) =
      cfgD.gravitationalStrength * 0.5 / (dist3 starD.pos * dist3 starD.pos) ∧
    dirToCenter starD.pos (dist3 starD.pos) =
      ⟨-starD.pos.x / dist3 starD.pos, -starD.pos.y / dist3 starD.pos,
       -starD.pos.z / dist3 starD.pos⟩ ∧
    dot (dirToCenter starD.pos (dist3 starD.pos))
      (dirToCenter starD.pos (dist3 starD.pos)) = 1 ∧
    gravityStep starD.vel (dirToCenter starD.pos (dist3 starD.pos))
        (forceMagnitude cfgD (dist3 starD.pos)) =
      ⟨starD.vel.x + (dirToCenter starD.pos (dist3 starD.pos)).x *
         forceMagnitude cfgD (dist3 starD.pos) * 0.1,
       starD.vel.y + (dirToCenter starD.pos (dist3 starD.pos)).y *
         forceMagnitude cfgD (dist3 starD.pos) * 0.1,
       starD.vel.z + (dirToCenter starD.pos (dist3 starD.pos)).z *
         forceMagnitude cfgD (dist3 starD.pos) * 0.1⟩ ∧
    (updateStar cfgD rndD starD).vel =
      dampStep (orbitalStep
        (gravityStep starD.vel (dirToCenter starD.pos (dist3 starD.pos))
          (forceMagnitude cfgD (dist3 starD.pos)))
        (dirToCenter starD.pos (dist3 starD.pos))
        (orbitalSpeed cfgD (dist3 starD.pos))) :=
  C3_gravity_kick cfgD rndD starD
    (by rw [show starD.pos = (⟨0, 16, 0⟩ : Vec3) from rfl,
          dist3_yaxis 16 (by norm_num)]; norm_num [cfgD])
    (by rw [show starD.pos = (⟨0, 16, 0⟩ : Vec3) from rfl,
          dist3_yaxis 16 (by norm_num)]; norm_num)

/-- C10: one update of an accretion-disk particle is a pure rotation about
the y-axis: it preserves the particle's distance from the axis and its
y-coordinate, and the new position is exactly the old radius placed at the
old angle advanced by `(0.5 / (radius * 0.1)) * 0.01`. -/
theorem C10_disk_rotation (p : Vec3) (hpos : 0 < p.x * p.x + p.z * p.z) :
    Real.sqrt ((diskUpdate p).x * (diskUpdate p).x + (diskUpdate p).z * (diskUpdate p).z) =
      Real.sqrt (p.x * p.x + p.z * p.z) ∧
    (diskUpdate p).y = p.y ∧
    diskUpdate p =
      ⟨Real.cos (atan2 p.z p.x + 0.5 / (Real.sqrt (p.x * p.x + p.z * p.z) * 0.1) * 0.01) *
         Real.sqrt (p.x * p.x + p.z * p.z),
       p.y,
       Real.sin (atan2 p.z p.x + 0.5 / (Real.sqrt (p.x * p.x + p.z * p.z) * 0.1) * 0.01) *
         Real.sqrt (p.x * p.x + p.z * p.z)⟩ := by
  refine ⟨?_, rfl, rfl⟩
  simp only [diskUpdate]
  rw [show Real.cos (atan2 p.z p.x + 0.5 / (Real.sqrt (p.x * p.x + p.z * p.z) * 0.1) * 0.01) *
        Real.sqrt (p.x * p.x + p.z * p.z) *
        (Real.cos (atan2 p.z p.x + 0.5 / (Real.sqrt (p.x * p.x + p.z * p.z) * 0.1) * 0.01) *
          Real.sqrt (p.x * p.x + p.z * p.z)) +
      Real.sin (atan2 p.z p.x + 0.5 / (Real.sqrt (p.x * p.x + p.z * p.z) * 0.1) * 0.01) *
        Real.sqrt (p.x * p.x + p.z * p.z) *
        (Real.sin (atan2 p.z p.x + 0.5 / (Real.sqrt (p.x * p.x + p.z * p.z) * 0.1) * 0.01) *
          Real.sqrt (p.x * p.x + p.z * p.z)) =
      (Real.sin (atan2 p.z p.x + 0.5 / (Real.sqrt (p.x * p.x + p.z * p.z) * 0.1) * 0.01) ^ 2 +
       Real.cos (atan2 p.z p.x + 0.5 / (Real.sqrt (p.x * p.x + p.z * p.z) * 0.1) * 0.01) ^ 2) *
      (Real.sqrt (p.x * p.x + p.z * p.z) * Real.sqrt (p.x * p.x + p.z * p.z)) by ring]
  rw [Real.sin_sq_add_cos_sq, one_mul, Real.sqrt_mul_self (Real.sqrt_nonneg _)]

/-- Witness for C10 at the point `(3, 7, 4)`. -/
theorem C10_witness :
    Real.sqrt ((diskUpdate ⟨3, 7, 4⟩).x * (diskUpdate ⟨3, 7, 4⟩).x +
        (diskUpdate ⟨3, 7, 4⟩).z * (diskUpdate ⟨3, 7, 4⟩).z) =
      Real.sqrt ((3 : ℝ) * 3 + 4 * 4) ∧
    (diskUpdate ⟨3, 7, 4⟩).y = 7 ∧
    diskUpdate ⟨3, 7, 4⟩ =
      ⟨Real.cos (atan2 4 3 + 0.5 / (Real.sqrt ((3 : ℝ) * 3 + 4 * 4) * 0.1) * 0.01) *
         Real.sqrt ((3 : ℝ) * 3 + 4 * 4),
       7,
       Real.sin (atan2 4 3 + 0.5 / (Real.sqrt ((3 : ℝ) * 3 + 4 * 4) * 0.1) * 0.01) *
         Real.sqrt ((3 : ℝ) * 3 + 4 * 4)⟩ :=
  C10_disk_rotation ⟨3, 7, 4⟩ (by norm_num)

/-- C2: a star is respawned exactly when its distance to center is below the
event-horizon radius `size * 1.5` (the lifetime counter plays no role): on
respawn its position is the shell sample at a radius in
`[2 * accretionDiskSize, 3 * accretionDiskSize)`, its velocity is reset to
zero and its size and lifetime are reset; otherwise its lifetime is
incremented by 1. -/
theorem C2_respawn_characterization (cfg : Config) (r : Rnd) (s : Star)
    (hA : 0 < cfg.accretionDiskSize) (hr0 : 0 ≤ r.rRadius) (hr1 : r.rRadius < 1) :
    (dist3 s.pos < cfg.size * 1.5 →
      updateStar cfg r s =
        { pos := shellPoint r.rTheta r.rPhi r.rRadius cfg.accretionDiskSize
          vel := ⟨0, 0, 0⟩
          size := 0.2 + r.rSize * 0.3
          lifetime := 0
          color := s.color } ∧
      cfg.accretionDiskSize * 2 ≤ dist3 (updateStar cfg r s).pos ∧
      dist3 (updateStar cfg r s).pos < cfg.accretionDiskSize * 3) ∧
    (¬ dist3 s.pos < cfg.size * 1.5 →
      (updateStar cfg r s).lifetime = s.lifetime + 1) := by
  have hsr : 0 ≤ shellRadius r.rRadius cfg.accretionDiskSize := by
    unfold shellRadius; nlinarith
  constructor
  · intro h
    have he : updateStar cfg r s =
        { pos := shellPoint r.rTheta r.rPhi r.rRadius cfg.accretionDiskSize
          vel := ⟨0, 0, 0⟩
          size := 0.2 + r.rSize * 0.3
          lifetime := 0
          color := s.color } := by
      simp only [updateStar, if_pos h]
    refine ⟨he, ?_, ?_⟩
    · rw [he]
      show cfg.accretionDiskSize * 2 ≤
        dist3 (shellPoint r.rTheta r.rPhi r.rRadius cfg.accretionDiskSize)
      rw [dist3_shellPoint _ _ _ _ hsr]
      unfold shellRadius; nlinarith
    · rw [he]
      show dist3 (shellPoint r.rTheta r.rPhi r.rRadius cfg.accretionDiskSize) <
        cfg.accretionDiskSize * 3
      rw [dist3_shellPoint _ _ _ _ hsr]
      unfold shellRadius; nlinarith
  · intro h
    simp only [updateStar, if_neg h]

/-- Witness for C2: a star at distance 1 respawns onto the shell; a star at
distance 16 lives on and its lifetime increments. -/
theorem C2_witness :
    (updateStar cfgD rndD starIn =
      { pos := shellPoint rndD.rTheta rndD.rPhi rndD.rRadius cfgD.accretionDiskSize
        vel := ⟨0, 0, 0⟩
        size := 0.2 + rndD.rSize * 0.3
        lifetime := 0
        color := starIn.color } ∧
     cfgD.accretionDiskSize * 2 ≤ dist3 (updateStar cfgD rndD starIn).pos ∧
     dist3 (updateStar cfgD rndD starIn).pos < cfgD.accretionDiskSize * 3) ∧
    (updateStar cfgD rndD starD).lifetime = starD.lifetime + 1 :=
  ⟨(C2_respawn_characterization cfgD rndD starIn (by norm_num [cfgD])
      (by norm_num [rndD]) (by norm_num [rndD])).1
      (by rw [show starIn.pos = (⟨0, 1, 0⟩ : Vec3) from rfl,
            dist3_yaxis 1 (by norm_num)]; norm_num [cfgD]),
   (C2_respawn_characterization cfgD rndD starD (by norm_num [cfgD])
      (by norm_num [rndD]) (by norm_num [rndD])).2
      (by rw [show starD.pos = (⟨0, 16, 0⟩ : Vec3) from rfl,
            dist3_yaxis 16 (by norm_num)]; norm_num [cfgD])⟩

/-- Configuration with a large gravitational strength, as a host may pass
through the `gravitationalStrength` prop. -/
noncomputable def cfgX : Config := ⟨3, 8, 60000⟩

/-- A star at a legitimate spawn-shell position of `cfgX` (on the y-axis at
distance 16, exactly the inner spawn-shell radius) with zero velocity. -/
noncomputable def starX : Star := ⟨⟨0, 16, 0⟩, ⟨0, 0, 0⟩, 0.25, 0, ⟨1, 1, 1⟩⟩

/-- Counterexample to C1: a star at a valid spawn position (the shell sample
at draws 1/4, 1/2, 0, at distance 16, inside the claimed interval
`[size * 1.5, accretionDiskSize * 3] = [4.5, 24]`) with zero velocity ends,
after a single per-frame update, at distance `4.3984375 < 4.5`: the update
carries it below the event-horizon radius, outside the claimed interval. -/
theorem C1_counterexample :
    starX.pos = shellPoint (1/4) (1/2) 0 cfgX.accretionDiskSize ∧
    starX.vel = ⟨0, 0, 0⟩ ∧
    cfgX.size * 1.5 ≤ dist3 starX.pos ∧
    dist3 starX.pos ≤ cfgX.accretionDiskSize * 3 ∧
    dist3 (updateStar cfgX rndD starX).pos < cfgX.size * 1.5 := by
  have hth : thetaOf (1/4) = Real.pi / 2 := by unfold thetaOf; ring
  have hph : phiOf (1/2) = Real.pi / 2 := by
    unfold phiOf
    norm_num [Real.arccos_zero]
  have hd16 : dist3 starX.pos = 16 := by
    rw [show starX.pos = (⟨0, 16, 0⟩ : Vec3) from rfl, dist3_yaxis 16 (by norm_num)]
  have hsin2 : Real.sin (phiOf (1/2)) = 1 := by rw [hph]; exact Real.sin_pi_div_two
  have hcos2 : Real.cos (phiOf (1/2)) = 0 := by rw [hph]; exact Real.cos_pi_div_two
  have hsin4 : Real.sin (thetaOf (1/4)) = 1 := by rw [hth]; exact Real.sin_pi_div_two
  have hcos4 : Real.cos (thetaOf (1/4)) = 0 := by rw [hth]; exact Real.cos_pi_div_two
  refine ⟨?_, rfl, ?_, ?_, ?_⟩
  · ext <;>
      · simp only [starX, cfgX, shellPoint, shellRadius, hsin2, hcos2, hsin4, hcos4]
        norm_num
  · rw [hd16]; norm_num [cfgX]
  · rw [hd16]; norm_num [cfgX]
  · rw [updateStar_yaxis cfgX rndD starX 16 rfl rfl (by norm_num)
      (by norm_num [cfgX])]
    rw [show (16 : ℝ) + -(cfgX.gravitationalStrength * 0.5 / (16 * 16)) * 0.1 * 0.99 =
      4.3984375 by norm_num [cfgX]]
    rw [dist3_yaxis 4.3984375 (by norm_num)]
    norm_num [cfgX]

/-- C1 as amended: the claimed interval holds at the instants of spawn and
respawn — the shell sampler always lands in
`[2 * accretionDiskSize, 3 * accretionDiskSize]`, which lies inside
`[size * 1.5, accretionDiskSize * 3]` whenever the event horizon is within
the spawn shell, and a star found inside the event horizon is placed back
into that interval by the update — but the interval is not invariant under
arbitrary update calls (see the counterexample). -/
theorem C1_amended_bounds_at_spawn_and_respawn (cfg : Config) (r : Rnd) (s : Star)
    (hA : 0 < cfg.accretionDiskSize) (hr0 : 0 ≤ r.rRadius) (hr1 : r.rRadius < 1)
    (hhor : cfg.size * 1.5 ≤ cfg.accretionDiskSize * 2)
    (hin : dist3 s.pos < cfg.size * 1.5) :
    (cfg.size * 1.5 ≤ dist3 (shellPoint r.rTheta r.rPhi r.rRadius cfg.accretionDiskSize) ∧
     dist3 (shellPoint r.rTheta r.rPhi r.rRadius cfg.accretionDiskSize) ≤
       cfg.accretionDiskSize * 3) ∧
    (cfg.size * 1.5 ≤ dist3 (updateStar cfg r s).pos ∧
     dist3 (updateStar cfg r s).pos ≤ cfg.accretionDiskSize * 3) := by
  have hsr : 0 ≤ shellRadius r.rRadius cfg.accretionDiskSize := by
    unfold shellRadius; nlinarith
  have hds := dist3_shellPoint r.rTheta r.rPhi r.rRadius cfg.accretionDiskSize hsr
  have hfirst : cfg.size * 1.5 ≤
      dist3 (shellPoint r.rTheta r.rPhi r.rRadius cfg.accretionDiskSize) ∧
      dist3 (shellPoint r.rTheta r.rPhi r.rRadius cfg.accretionDiskSize) ≤
        cfg.accretionDiskSize * 3 := by
    rw [hds]
    unfold shellRadius
    constructor <;> nlinarith
  have hpos : (updateStar cfg r s).pos =
      shellPoint r.rTheta r.rPhi r.rRadius cfg.accretionDiskSize := by
    simp only [updateStar, if_pos hin]
  exact ⟨hfirst, by rw [hpos]; exact hfirst⟩

/-- Witness for the amended C1 at the default configuration and a star at
distance 1 (inside the horizon). -/
theorem C1_amended_witness :
    (cfgD.size * 1.5 ≤ dist3 (shellPoint rndD.rTheta rndD.rPhi rndD.rRadius
       cfgD.accretionDiskSize) ∧
     dist3 (shellPoint rndD.rTheta rndD.rPhi rndD.rRadius cfgD.accretionDiskSize) ≤
       cfgD.accretionDiskSize * 3) ∧
    (cfgD.size * 1.5 ≤ dist3 (updateStar cfgD rndD starIn).pos ∧
     dist3 (updateStar cfgD rndD starIn).pos ≤ cfgD.accretionDiskSize * 3) :=
  C1_amended_bounds_at_spawn_and_respawn cfgD rndD starIn (by norm_num [cfgD])
    (by norm_num [rndD]) (by norm_num [rndD]) (by norm_num [cfgD])
    (by rw [show starIn.pos = (⟨0, 1, 0⟩ : Vec3) from rfl,
          dist3_yaxis 1 (by norm_num)]; norm_num [cfgD])

/-- The total per-step additive velocity increment of the non-respawn branch
for a particle at position `p` (gravity kick plus orbital kick), before
damping. -/
noncomputable def heldIncr (cfg : Config) (p : Vec3) : Vec3 :=
  ⟨(dirToCenter p (dist3 p)).x * forceMagnitude cfg (dist3 p) * 0.1 +
     -(dirToCenter p (dist3 p)).z * orbitalSpeed cfg (dist3 p) * 0.5,
   (dirToCenter p (dist3 p)).y * forceMagnitude cfg (dist3 p) * 0.1,
   (dirToCenter p (dist3 p)).z * forceMagnitude cfg (dist3 p) * 0.1 +
     (dirToCenter p (dist3 p)).x * orbitalSpeed cfg (dist3 p) * 0.5⟩

/-- Closed form of the velocity update: damping applied to the incoming
velocity plus the fixed increment, componentwise. -/
lemma heldVelStep_eq (cfg : Config) (p v : Vec3) :
    heldVelStep cfg p v =
      ⟨(v.x + (heldIncr cfg p).x) * 0.99,
       (v.y + (heldIncr cfg p).y) * 0.99,
       (v.z + (heldIncr cfg p).z) * 0.99⟩ := by
  ext <;>
    · simp only [heldVelStep, heldIncr, gravityStep, orbitalStep, dampStep]
      try ring

/-- Damping keeps a component bounded: if the incoming component is within
`M` and `99` times the increment is within `M`, the damped sum is within
`M`. -/
lemma damp_abs_le (v a M : ℝ) (hv : |v| ≤ M) (hM : 99 * |a| ≤ M) :
    |(v + a) * 0.99| ≤ M := by
  have h1 : |(v + a) * 0.99| = |v + a| * 0.99 := by
    rw [abs_mul, abs_of_pos (show (0 : ℝ) < 0.99 by norm_num)]
  have h2 : |v + a| ≤ M + |a| := le_trans (abs_add v a) (add_le_add hv le_rfl)
  rw [h1]
  linarith

/-- C4: for a particle held at a fixed position outside the event horizon,
the velocity produced by any number of repeated non-respawn velocity updates
stays below a fixed bound (the damping factor 0.99 < 1 prevents unbounded
growth); moreover the held velocity update is exactly the velocity update
the star update applies in its non-respawn branch. -/
theorem C4_velocity_bounded (cfg : Config) (p v0 : Vec3)
    (hout : cfg.size * 1.5 ≤ dist3 p) :
    (∀ (r : Rnd) (s : Star), s.pos = p → ¬ dist3 s.pos < cfg.size * 1.5 →
      (updateStar cfg r s).vel = heldVelStep cfg p s.vel) ∧
    ∃ B, ∀ n : ℕ, dist3 ((heldVelStep cfg p)^[n] v0) < B := by
  constructor
  · intro r s hps hg
    rw [hps] at hg
    simp only [updateStar, starVel, hps, if_neg hg]
  · set a := heldIncr cfg p with ha
    set Mx := max |v0.x| (99 * |a.x|) with hMx
    set My := max |v0.y| (99 * |a.y|) with hMy
    set Mz := max |v0.z| (99 * |a.z|) with hMz
    have key : ∀ n : ℕ,
        |((heldVelStep cfg p)^[n] v0).x| ≤ Mx ∧
        |((heldVelStep cfg p)^[n] v0).y| ≤ My ∧
        |((heldVelStep cfg p)^[n] v0).z| ≤ Mz := by
      intro n
      induction n with
      | zero =>
        exact ⟨le_max_left _ _, le_max_left _ _, le_max_left _ _⟩
      | succ n ih =>
        rw [Function.iterate_succ_apply', heldVelStep_eq]
        exact ⟨damp_abs_le _ _ _ ih.1 (le_max_right _ _),
               damp_abs_le _ _ _ ih.2.1 (le_max_right _ _),
               damp_abs_le _ _ _ ih.2.2 (le_max_right _ _)⟩
    refine ⟨Real.sqrt (Mx * Mx + My * My + Mz * Mz) + 1, fun n => ?_⟩
    obtain ⟨hx, hy, hz⟩ := key n
    set w := (heldVelStep cfg p)^[n] v0
    have e1 : w.x * w.x ≤ Mx * Mx := by
      calc w.x * w.x = |w.x| * |w.x| := (abs_mul_abs_self w.x).symm
      _ ≤ Mx * Mx := mul_self_le_mul_self (abs_nonneg _) hx
    have e2 : w.y * w.y ≤ My * My := by
      calc w.y * w.y = |w.y| * |w.y| := (abs_mul_abs_self w.y).symm
      _ ≤ My * My := mul_self_le_mul_self (abs_nonneg _) hy
    have e3 : w.z * w.z ≤ Mz * Mz := by
      calc w.z * w.z = |w.z| * |w.z| := (abs_mul_abs_self w.z).symm
      _ ≤ Mz * Mz := mul_self_le_mul_self (abs_nonneg _) hz
    have h2 : dist3 w ≤ Real.sqrt (Mx * Mx + My * My + Mz * Mz) := by
      unfold dist3
      exact Real.sqrt_le_sqrt (by linarith)
    linarith

/-- Witness for C4 at the default configuration, a particle held at
`(0, 16, 0)` and initial velocity zero. -/
theorem C4_witness :
    ((updateStar cfgD rndD starD).vel = heldVelStep cfgD ⟨0, 16, 0⟩ starD.vel) ∧
    ∃ B, ∀ n : ℕ, dist3 ((heldVelStep cfgD ⟨0, 16, 0⟩)^[n] ⟨0, 0, 0⟩) < B :=
  have h := C4_velocity_bounded cfgD ⟨0, 16, 0⟩ ⟨0, 0, 0⟩
    (by rw [dist3_yaxis 16 (by norm_num)]; norm_num [cfgD])
  ⟨h.1 rndD starD rfl
    (by rw [show starD.pos = (⟨0, 16, 0⟩ : Vec3) from rfl,
          dist3_yaxis 16 (by norm_num)]; norm_num [cfgD]),
   h.2⟩

end BlackHole
